import Mathlib

/-!
Verification development for the socius networking agent.

The definitions below are a shallow embedding of the agent core:
`agent/core/matching.py` (MatchingEngine), `agent/core/permissions.py`
(PermissionsManager, ActionType, PermissionLevel) and
`agent/core/agent.py` (SociusAgent.handle_new_person_nearby and the
autonomous-outreach sub-flow).  Python floats are modelled as rationals,
Python dict fields that may be absent as `Option`, the external
collaborators (profile store, preference store, messaging, email,
LLM) as explicit parameters of an environment record, and the side
effects performed through them as an explicit trace list.
-/

/-- Python `str.lower()` (ASCII case folding, as used by the profiles here). -/
def lower (s : String) : String := String.mk (s.data.map Char.toLower)

/-- `needle` occurs at the start of `hay` (character lists). -/
def strStartsWith : List Char → List Char → Bool
  | [], _ => true
  | _ :: _, [] => false
  | c :: cs, d :: ds => c = d && strStartsWith cs ds

/-- `needle` occurs somewhere inside `hay` (character lists). -/
def strContainsAux (needle : List Char) : List Char → Bool
  | [] => strStartsWith needle []
  | d :: ds => strStartsWith needle (d :: ds) || strContainsAux needle ds

/-- Python substring test `needle in hay`. -/
def strContains (hay needle : String) : Bool :=
  strContainsAux needle.data hay.data

/-- Helper for `pySplit`: accumulates the current word (reversed). -/
def splitWsAux : List Char → List Char → List String
  | [], acc => if acc.isEmpty then [] else [String.mk acc.reverse]
  | c :: cs, acc =>
    if c.isWhitespace then
      (if acc.isEmpty then [] else [String.mk acc.reverse]) ++ splitWsAux cs []
    else
      splitWsAux cs (c :: acc)

/-- Python `str.split()` with no argument: split on whitespace runs, no empty parts. -/
def pySplit (s : String) : List String := splitWsAux s.data []

/-- Python `sep.join(parts)`. -/
def joinWith (sep : String) : List String → String
  | [] => ""
  | [s] => s
  | s :: ss => s ++ sep ++ joinWith sep ss

/-- Rendering of a possibly-absent value inside a Python f-string:
`None` prints as the four characters `None`. -/
def pyStr : Option String → String
  | none => "None"
  | some s => s

/-- Python truthiness of `dict.get(key)` for a string-valued key:
both a missing key (`None`) and an empty string are falsy. -/
def pyTruthy (o : Option String) : Bool := o.getD "" ≠ ""

/-- A user profile document, as consumed by the matching engine and the
agent (`user1_profile.get(...)` accesses).  Fields that the Python code
reads with `.get` and may be absent are `Option`s / default-empty lists;
`contact` is flattened into its `phone` and `email` entries. -/
structure Profile where
  name : Option String := none
  role : Option String := none
  industry : Option String := none
  seniority : Option String := none
  interests : List String := []
  goals : List String := []
  phone : Option String := none
  email : Option String := none

/-- `MatchingEngine._calculate_interest_overlap`: Jaccard index over
case-folded interest sets, `0.0` when either list is empty. -/
def calculate_interest_overlap (interests1 interests2 : List String) : ℚ :=
  if interests1 = [] ∨ interests2 = [] then 0
  else
    let set1 := (interests1.map lower).toFinset
    let set2 := (interests2.map lower).toFinset
    let intersection := (set1 ∩ set2).card
    let union := (set1 ∪ set2).card
    if union > 0 then (intersection : ℚ) / (union : ℚ) else 0

/-- `MatchingEngine._calculate_industry_match`: `1.0` on case-folded
exact equality, otherwise keyword overlap `min(overlap/3, 0.7)`. -/
def calculate_industry_match (industry1 industry2 : String) : ℚ :=
  if industry1 = "" ∨ industry2 = "" then 0
  else if lower industry1 = lower industry2 then 1
  else
    let keywords1 := (pySplit (lower industry1)).toFinset
    let keywords2 := (pySplit (lower industry2)).toFinset
    let overlap := (keywords1 ∩ keywords2).card
    if overlap > 0 then min ((overlap : ℚ) / 3) (7 / 10) else 0

/-- The fixed seniority ladder of `_calculate_role_compatibility`. -/
def seniority_levels : List String :=
  ["junior", "mid", "senior", "lead", "manager", "director", "vp", "c-level"]

/-- Index of the first ladder entry occurring as a substring of the
case-folded seniority string (`next(..., -1)` modelled as `Option`). -/
def seniorityLevel (seniority : String) : Option Nat :=
  seniority_levels.findIdx? (fun level => strContains (lower seniority) level)

/-- The role half of `_calculate_role_compatibility`: `0.5` for an exact
case-folded match, else `0.3` when any whitespace token of role 1 is a
substring of role 2, guarded by Python truthiness of both roles. -/
def role_part (role1 role2 : String) : ℚ :=
  if role1 ≠ "" ∧ role2 ≠ "" then
    if lower role1 = lower role2 then 1 / 2
    else if (pySplit (lower role1)).any (fun word => strContains (lower role2) word) then 3 / 10
    else 0
  else 0

/-- The seniority half of `_calculate_role_compatibility`: ladder
distance 0 / 1 / 2 gives `0.5` / `0.3` / `0.1`, anything else `0`. -/
def seniority_part (seniority1 seniority2 : String) : ℚ :=
  if seniority1 ≠ "" ∧ seniority2 ≠ "" then
    match seniorityLevel seniority1, seniorityLevel seniority2 with
    | some level1, some level2 =>
      let diff := max level1 level2 - min level1 level2
      if diff = 0 then 1 / 2
      else if diff = 1 then 3 / 10
      else if diff = 2 then 1 / 10
      else 0
    | _, _ => 0
  else 0

/-- `MatchingEngine._calculate_role_compatibility`: the Python method
accumulates the two halves into one running score and clamps at `1.0`. -/
def calculate_role_compatibility (role1 role2 seniority1 seniority2 : String) : ℚ :=
  min (role_part role1 role2 + seniority_part seniority1 seniority2) 1

/-- `MatchingEngine._calculate_goals_alignment`: word-level Jaccard index
over the space-joined, case-folded goal lists. -/
def calculate_goals_alignment (goals1 goals2 : List String) : ℚ :=
  if goals1 = [] ∨ goals2 = [] then 0
  else
    let set1 := (pySplit (lower (joinWith " " goals1))).toFinset
    let set2 := (pySplit (lower (joinWith " " goals2))).toFinset
    let intersection := (set1 ∩ set2).card
    let union := (set1 ∪ set2).card
    if union > 0 then (intersection : ℚ) / (union : ℚ) else 0

/-- `MatchingEngine.calculate_match_score`: weighted sum of the four
sub-scores (weights 0.4 / 0.3 / 0.2 / 0.1) divided by the accumulated
weight total, which is guarded against being zero exactly as in Python. -/
def calculate_match_score (user1_profile user2_profile : Profile) : ℚ :=
  let interest_score :=
    calculate_interest_overlap user1_profile.interests user2_profile.interests
  let industry_score :=
    calculate_industry_match (user1_profile.industry.getD "") (user2_profile.industry.getD "")
  let role_score :=
    calculate_role_compatibility (user1_profile.role.getD "") (user2_profile.role.getD "")
      (user1_profile.seniority.getD "") (user2_profile.seniority.getD "")
  let goals_score :=
    calculate_goals_alignment user1_profile.goals user2_profile.goals
  let score :=
    interest_score * (2 / 5) + industry_score * (3 / 10)
      + role_score * (1 / 5) + goals_score * (1 / 10)
  let weights_sum : ℚ := 2 / 5 + 3 / 10 + 1 / 5 + 1 / 10
  if weights_sum > 0 then score / weights_sum else 0

/-- `MatchingEngine.is_high_match`: `score >= self.high_match_threshold`. -/
def is_high_match (high_match_threshold score : ℚ) : Bool :=
  high_match_threshold ≤ score

/-- The `reasons` list built inside `MatchingEngine.get_match_reason`.
Python iterates a set when listing common interests; the iteration order
is unspecified there, modelled here in first-profile order after
case-folding and deduplication. -/
def match_reasons (user1_profile user2_profile : Profile) : List String :=
  let interests1 := user1_profile.interests.map lower
  let interests2 := user2_profile.interests.map lower
  let common_interests := interests1.dedup.filter (fun i => i ∈ interests2)
  (if common_interests ≠ [] then
      ["shared interests in " ++ joinWith ", " (common_interests.take 3)]
    else [])
  ++ (if lower (user1_profile.industry.getD "") = lower (user2_profile.industry.getD "") then
      ["both work in " ++ pyStr user1_profile.industry]
    else [])
  ++ (if pyTruthy user1_profile.role ∧ pyTruthy user2_profile.role then
      (if lower (user1_profile.role.getD "") = lower (user2_profile.role.getD "") then
        ["similar roles as " ++ user1_profile.role.getD ""]
      else [])
    else [])

/-- `MatchingEngine.get_match_reason`: joins the first two reasons with
`" and "`, or returns the fixed fallback phrase when none qualify.
The `score` argument is accepted and ignored, as in the source. -/
def get_match_reason (user1_profile user2_profile : Profile) (score : ℚ) : String :=
  let reasons := match_reasons user1_profile user2_profile
  if reasons = [] then "potential synergy based on your profiles"
  else
    let _ := score
    joinWith " and " (reasons.take 2)

/-- `ActionType` from `agent/core/permissions.py`. -/
inductive ActionType where
  | send_message
  | schedule_meeting
  | send_email
  | share_profile
  | request_connection
deriving DecidableEq

/-- The string value of each `ActionType` enum member. -/
def ActionType.value : ActionType → String
  | .send_message => "send_message"
  | .schedule_meeting => "schedule_meeting"
  | .send_email => "send_email"
  | .share_profile => "share_profile"
  | .request_connection => "request_connection"

/-- `PermissionLevel` from `agent/core/permissions.py`. -/
inductive PermissionLevel where
  | always_ask
  | auto_high_match
  | always_auto
  | never
deriving DecidableEq

/-- The string value of each `PermissionLevel` enum member. -/
def PermissionLevel.value : PermissionLevel → String
  | .always_ask => "always_ask"
  | .auto_high_match => "auto_high_match"
  | .always_auto => "always_auto"
  | .never => "never"

/-- The Python enum constructor `PermissionLevel(perm_str)`: succeeds
exactly on the four member values, raises `ValueError` otherwise
(modelled as `none`). -/
def PermissionLevel.ofValue (s : String) : Option PermissionLevel :=
  if s = "always_ask" then some .always_ask
  else if s = "auto_high_match" then some .auto_high_match
  else if s = "always_auto" then some .always_auto
  else if s = "never" then some .never
  else none

/-- `PermissionsManager.default_permissions`. -/
def default_permissions : ActionType → PermissionLevel
  | .send_message => .auto_high_match
  | .schedule_meeting => .always_ask
  | .send_email => .auto_high_match
  | .share_profile => .always_auto
  | .request_connection => .auto_high_match

/-- The preference record returned by the external preference store for
one user: only its `permissions` sub-dict (string keys to string values)
is read by the permissions manager. -/
structure Prefs where
  permissions : String → Option String

/-- `PermissionsManager.get_user_permissions`, for one action type:
`perm_str = permissions.get(action_type.value)`; a missing or falsy
(empty) value and an unparseable value both fall back to the default. -/
def get_user_permissions (prefs : Prefs) (action_type : ActionType) : PermissionLevel :=
  match prefs.permissions action_type.value with
  | some perm_str =>
    if perm_str ≠ "" then
      (PermissionLevel.ofValue perm_str).getD (default_permissions action_type)
    else default_permissions action_type
  | none => default_permissions action_type

/-- `PermissionsManager.can_auto_execute`: a fresh read of the user
permissions, then the four-way decision table.  The Python fallback
`permissions.get(action_type, ALWAYS_ASK)` is unreachable because
`get_user_permissions` returns a binding for every action type. -/
def can_auto_execute (prefs : Prefs) (action_type : ActionType) (high : Bool) : Bool :=
  match get_user_permissions prefs action_type with
  | .never => false
  | .always_auto => true
  | .auto_high_match => high
  | .always_ask => false

/-- `PermissionsManager.update_permission`: read-modify-write of the
stored permissions dict, setting `permissions[action_type.value] =
permission_level.value` and leaving every other key untouched. -/
def update_permission (prefs : Prefs) (action_type : ActionType)
    (permission_level : PermissionLevel) : Prefs :=
  { prefs with
    permissions := fun key =>
      if key = action_type.value then some permission_level.value
      else prefs.permissions key }

/-- The environment of one `SociusAgent` call: the agent identity and
profile, the configured threshold, and the responses of the external
collaborators (profile store, preference store, LLM draft, delivery
adapters, detection context). -/
structure AgentEnv where
  user_id : String
  user_profile : Profile
  high_match_threshold : ℚ
  prefs : Prefs
  get_profile : String → Option Profile
  claude_output : String
  imessage_success : Bool
  email_success : Bool
  event_name : Option String

/-- One observable call to an external collaborator during
`handle_new_person_nearby`. -/
inductive Effect where
  | sent_imessage (phone message : String)
  | sent_email (to_addr subject body : String)
  | logged_interaction (user_id other_user_id interaction_type : String)
deriving DecidableEq

/-- The dict returned by `handle_new_person_nearby` /
`_autonomous_outreach`, one constructor per result shape. -/
inductive AgentResult where
  | skip (reason : String)
  | request_permission (match_score : ℚ) (reason : String)
  | sent_imessage (recipient : Option String) (message : String) (success : Bool)
  | sent_email (recipient : Option String) (message : String) (success : Bool)
  | no_contact_method (recipient : Option String)
deriving DecidableEq

/-- `SociusAgent._autonomous_outreach`: drafts a message via the LLM,
picks the channel by contact-info precedence (phone, then email, else
`no_contact_method`), then logs the `autonomous_outreach` interaction
after the branch, and returns the branch result.  Returns the result
paired with the trace of external calls. -/
def autonomous_outreach (env : AgentEnv) (other_user_id : String)
    (other_profile : Profile) (match_score : ℚ) : AgentResult × List Effect :=
  let _ := match_score
  let message := env.claude_output
  let phone := other_profile.phone
  let email := other_profile.email
  let branch : AgentResult × List Effect :=
    if pyTruthy phone then
      (AgentResult.sent_imessage other_profile.name message env.imessage_success,
        [Effect.sent_imessage (phone.getD "") message])
    else if pyTruthy email then
      (AgentResult.sent_email other_profile.name message env.email_success,
        [Effect.sent_email (email.getD "")
          ("Great to connect at " ++ env.event_name.getD "the event" ++ "!") message])
    else
      (AgentResult.no_contact_method other_profile.name, [])
  (branch.1,
    branch.2 ++ [Effect.logged_interaction env.user_id other_user_id "autonomous_outreach"])

/-- `SociusAgent.handle_new_person_nearby`: profile lookup (absent
profile is a terminal skip), match scoring, the permission gate for
`send_message`, then either the autonomous-outreach sub-flow or a
`request_permission` result with no side effect. -/
def handle_new_person_nearby (env : AgentEnv) (other_user_id : String) :
    AgentResult × List Effect :=
  match env.get_profile other_user_id with
  | none => (AgentResult.skip "No profile found", [])
  | some other_profile =>
    let match_score := calculate_match_score env.user_profile other_profile
    let high := is_high_match env.high_match_threshold match_score
    if can_auto_execute env.prefs ActionType.send_message high then
      autonomous_outreach env other_user_id other_profile match_score
    else
      (AgentResult.request_permission match_score
          (get_match_reason env.user_profile other_profile match_score),
        [])

/-! ### Concrete fixtures used by witnesses and counterexamples -/

/-- A preference record with no stored permissions. -/
def prefs_empty : Prefs := ⟨fun _ => none⟩

/-- A preference record storing the explicit override `never` for
`send_message`. -/
def prefs_never : Prefs := ⟨fun k => if k = "send_message" then some "never" else none⟩

/-- A preference record whose stored `send_email` value is not a valid
permission level. -/
def prefs_corrupt : Prefs := ⟨fun k => if k = "send_email" then some "sometimes" else none⟩

/-- A preference record storing `always_auto` for `send_message`. -/
def prefs_allow : Prefs := ⟨fun k => if k = "send_message" then some "always_auto" else none⟩

/-- Profile of user A from the §8 scenario of the spec. -/
def profile_A : Profile :=
  { interests := ["AI", "networking", "startups"], industry := some "Technology",
    role := some "Software Engineer", seniority := some "senior" }

/-- Profile of user B from the §8 scenario of the spec. -/
def profile_B : Profile :=
  { interests := ["AI", "product", "networking"], industry := some "Technology",
    role := some "Product Manager", seniority := some "senior" }

/-- A profile whose only populated field is the role `eng`. -/
def profile_eng : Profile := { role := some "eng" }

/-- A profile whose only populated field is the role `engineer`. -/
def profile_engineer : Profile := { role := some "engineer" }

/-- A fully populated profile used for the self-match witness. -/
def profile_self : Profile :=
  { role := some "Software Engineer", industry := some "Technology",
    seniority := some "senior", interests := ["ai"], goals := ["meet founders"] }

/-- A detected profile with a name but no phone and no email. -/
def profile_casey : Profile := { name := some "Casey" }

/-- Agent environment whose profile store finds nobody. -/
def env_missing : AgentEnv :=
  { user_id := "agent-user", user_profile := {}, high_match_threshold := 3 / 4,
    prefs := prefs_empty, get_profile := fun _ => none, claude_output := "",
    imessage_success := false, email_success := false, event_name := none }

/-- Agent environment that always auto-sends and detects a person with
no contact methods. -/
def env_no_contact : AgentEnv :=
  { user_id := "agent-user", user_profile := {}, high_match_threshold := 3 / 4,
    prefs := prefs_allow, get_profile := fun _ => some profile_casey,
    claude_output := "hello there", imessage_success := true, email_success := true,
    event_name := none }

/-! ### Shared lemmas -/

/-- The interest sub-score lies in the unit interval. -/
lemma calculate_interest_overlap_bounds (i1 i2 : List String) :
    0 ≤ calculate_interest_overlap i1 i2 ∧ calculate_interest_overlap i1 i2 ≤ 1 := by
  simp only [calculate_interest_overlap]
  split_ifs with h1 h2
  · norm_num
  · refine ⟨by positivity, ?_⟩
    rw [div_le_one (by exact_mod_cast h2)]
    exact_mod_cast Finset.card_le_card Finset.inter_subset_union
  · norm_num

/-- The industry sub-score lies in the unit interval. -/
lemma calculate_industry_match_bounds (s1 s2 : String) :
    0 ≤ calculate_industry_match s1 s2 ∧ calculate_industry_match s1 s2 ≤ 1 := by
  simp only [calculate_industry_match]
  split_ifs with h1 h2 h3
  · norm_num
  · norm_num
  · exact ⟨le_min (by positivity) (by norm_num),
      le_trans (min_le_right _ _) (by norm_num)⟩
  · norm_num

/-- The role half of the role sub-score lies in `[0, 1/2]`. -/
lemma role_part_bounds (r1 r2 : String) :
    0 ≤ role_part r1 r2 ∧ role_part r1 r2 ≤ 1 / 2 := by
  simp only [role_part]
  split_ifs <;> norm_num

/-- The seniority half of the role sub-score lies in `[0, 1/2]`. -/
lemma seniority_part_bounds (s1 s2 : String) :
    0 ≤ seniority_part s1 s2 ∧ seniority_part s1 s2 ≤ 1 / 2 := by
  simp only [seniority_part]
  split_ifs with h1
  · cases seniorityLevel s1 <;> cases seniorityLevel s2 <;> simp <;> split_ifs <;> norm_num
  · norm_num

/-- The combined role/seniority sub-score lies in the unit interval. -/
lemma calculate_role_compatibility_bounds (r1 r2 s1 s2 : String) :
    0 ≤ calculate_role_compatibility r1 r2 s1 s2 ∧
      calculate_role_compatibility r1 r2 s1 s2 ≤ 1 := by
  obtain ⟨hr0, _⟩ := role_part_bounds r1 r2
  obtain ⟨hs0, _⟩ := seniority_part_bounds s1 s2
  exact ⟨le_min (by linarith) (by norm_num), min_le_right _ _⟩

/-- The goals sub-score lies in the unit interval. -/
lemma calculate_goals_alignment_bounds (g1 g2 : List String) :
    0 ≤ calculate_goals_alignment g1 g2 ∧ calculate_goals_alignment g1 g2 ≤ 1 := by
  simp only [calculate_goals_alignment]
  split_ifs with h1 h2
  · norm_num
  · refine ⟨by positivity, ?_⟩
    rw [div_le_one (by exact_mod_cast h2)]
    exact_mod_cast Finset.card_le_card Finset.inter_subset_union
  · norm_num

/-- Interest overlap is symmetric in its two profiles. -/
lemma calculate_interest_overlap_comm (i1 i2 : List String) :
    calculate_interest_overlap i1 i2 = calculate_interest_overlap i2 i1 := by
  simp only [calculate_interest_overlap]
  by_cases h1 : i1 = [] <;> by_cases h2 : i2 = [] <;> simp [h1, h2]
  rw [Finset.inter_comm, Finset.union_comm]

/-- Industry match is symmetric in its two industries. -/
lemma calculate_industry_match_comm (s1 s2 : String) :
    calculate_industry_match s1 s2 = calculate_industry_match s2 s1 := by
  simp only [calculate_industry_match]
  by_cases h1 : s1 = "" <;> by_cases h2 : s2 = "" <;> simp [h1, h2]
  by_cases he : lower s1 = lower s2
  · rw [if_pos he, if_pos he.symm]
  · have he' : ¬ lower s2 = lower s1 := fun h => he h.symm
    rw [if_neg he, if_neg he']
    rw [Finset.inter_comm]

/-- Goals alignment is symmetric in its two goal lists. -/
lemma calculate_goals_alignment_comm (g1 g2 : List String) :
    calculate_goals_alignment g1 g2 = calculate_goals_alignment g2 g1 := by
  simp only [calculate_goals_alignment]
  by_cases h1 : g1 = [] <;> by_cases h2 : g2 = [] <;> simp [h1, h2]
  rw [Finset.inter_comm, Finset.union_comm]

/-- Interest overlap of a non-empty list with itself is `1`. -/
lemma calculate_interest_overlap_self (l : List String) (h : l ≠ []) :
    calculate_interest_overlap l l = 1 := by
  simp only [calculate_interest_overlap]
  rw [if_neg (by simp [h])]
  rw [Finset.inter_self, Finset.union_self]
  have hS : 0 < (l.map lower).toFinset.card := by
    rcases l with _ | ⟨x, xs⟩
    · exact absurd rfl h
    · exact Finset.card_pos.mpr ⟨lower x, by simp⟩
  rw [if_pos hS, div_self (by exact_mod_cast hS.ne')]

/-- Industry match of a non-empty industry with itself is `1`. -/
lemma calculate_industry_match_self (s : String) (h : s ≠ "") :
    calculate_industry_match s s = 1 := by
  simp [calculate_industry_match, h]

/-- The role half for identical non-empty roles is `1/2`. -/
lemma role_part_self (r : String) (h : r ≠ "") : role_part r r = 1 / 2 := by
  simp [role_part, h]

/-- The seniority half for an identical non-empty seniority recognised
by the ladder is `1/2`. -/
lemma seniority_part_self (s : String) (h : s ≠ "")
    (h2 : (seniorityLevel s).isSome = true) : seniority_part s s = 1 / 2 := by
  obtain ⟨l, hl⟩ := Option.isSome_iff_exists.mp h2
  simp [seniority_part, h, hl]

/-- Goals alignment of a non-empty, tokenizable goal list with itself is `1`. -/
lemma calculate_goals_alignment_self (g : List String) (h : g ≠ [])
    (h2 : pySplit (lower (joinWith " " g)) ≠ []) :
    calculate_goals_alignment g g = 1 := by
  simp only [calculate_goals_alignment]
  rw [if_neg (by simp [h])]
  rw [Finset.inter_self, Finset.union_self]
  have hS : 0 < (pySplit (lower (joinWith " " g))).toFinset.card := by
    rcases hx : pySplit (lower (joinWith " " g)) with _ | ⟨x, xs⟩
    · exact absurd hx h2
    · exact Finset.card_pos.mpr ⟨x, by simp [hx]⟩
  rw [if_pos hS, div_self (by exact_mod_cast hS.ne')]

/-- The enum round-trip: parsing the string value of a permission level
yields that level. -/
lemma PermissionLevel.ofValue_value (lvl : PermissionLevel) :
    PermissionLevel.ofValue lvl.value = some lvl := by
  cases lvl <;> rfl

/-- No permission level has the empty string as its value. -/
lemma PermissionLevel.value_ne_empty (lvl : PermissionLevel) : lvl.value ≠ "" := by
  cases lvl <;> decide

/-- Distinct action types have distinct string values. -/
lemma ActionType.value_injective (x y : ActionType) (h : x.value = y.value) : x = y := by
  cases x <;> cases y <;> first | rfl | exact absurd h (by decide)

/-- A reason string starting with `both work in` is never the fixed
fallback phrase. -/
lemma both_work_in_ne_fallback (t : String) :
    "both work in " ++ t ≠ "potential synergy based on your profiles" := by
  intro h
  have hd := congrArg String.data h
  rw [String.data_append] at hd
  have hb : "both work in ".data = 'b' :: "oth work in ".data := by decide
  have hp : "potential synergy based on your profiles".data
      = 'p' :: "otential synergy based on your profiles".data := by decide
  rw [hb, hp, List.cons_append] at hd
  injection hd with h1 _
  exact absurd h1 (by decide)

/-! ### Claim theorems -/

/-- C1 (counterexample): with a detected person who has neither phone nor
email, `handle_new_person_nearby` reaches the `no_contact_method` branch
of the autonomous-outreach sub-flow and STILL emits the
`autonomous_outreach` interaction-log call, refuting the claim that no
interaction is logged in that branch. -/
theorem no_contact_method_still_logs_cex :
    handle_new_person_nearby env_no_contact "other-1" =
      (AgentResult.no_contact_method (some "Casey"),
        [Effect.logged_interaction "agent-user" "other-1" "autonomous_outreach"]) := by
  have hperm : can_auto_execute prefs_allow ActionType.send_message
      (is_high_match (3 / 4) (calculate_match_score {} profile_casey)) = true := by
    simp [can_auto_execute, get_user_permissions, prefs_allow, ActionType.value,
      PermissionLevel.ofValue]
  simp only [handle_new_person_nearby, env_no_contact]
  rw [hperm]
  simp [autonomous_outreach, profile_casey, pyTruthy]

/-- C1 (amended): the autonomous-outreach sub-flow logs exactly one
`autonomous_outreach` interaction record via the external logging
collaborator in EVERY branch — phone, email and `no_contact_method`
alike — because the log call sits after the channel branch; the branch
result is still returned to the caller. -/
theorem autonomous_outreach_always_logs (env : AgentEnv) (other_user_id : String)
    (other_profile : Profile) (match_score : ℚ) :
    Effect.logged_interaction env.user_id other_user_id "autonomous_outreach"
      ∈ (autonomous_outreach env other_user_id other_profile match_score).2 := by
  simp only [autonomous_outreach]
  split_ifs <;> simp

/-- C2 (counterexample): in the §8 scenario, the role/seniority
sub-score for Software Engineer vs Product Manager (both senior) is
`0.5`, not the claimed `0.8`: with no exact role match and no token of
one role occurring in the other, the role half contributes `0`, and only
the equal-seniority half contributes `0.5`. -/
theorem role_subscore_not_point_eight_cex :
    calculate_role_compatibility "Software Engineer" "Product Manager" "senior" "senior" ≠ 4 / 5 ∧
    calculate_role_compatibility "Software Engineer" "Product Manager" "senior" "senior" = 1 / 2 := by
  have hs : seniorityLevel "senior" = some 2 := by decide
  have h : calculate_role_compatibility "Software Engineer" "Product Manager" "senior" "senior"
      = 1 / 2 := by
    simp +decide [calculate_role_compatibility, role_part, seniority_part, hs]
    norm_num
  exact ⟨by rw [h]; norm_num, h⟩

/-- C2 (amended): for profile A (interests AI, networking, startups;
Technology; Software Engineer; senior) and profile B (interests AI,
product, networking; Technology; Product Manager; senior): the interest
sub-score is `2/4 = 0.5`, the industry sub-score is `1.0`, the
role/seniority sub-score is `0.5` (the role half contributes `0` with no
exact match and no substring token, the identical seniority contributes
`0.5`), the weighted score is exactly `0.6` — within the claimed
0.60 to 0.65 band and below the `0.75` default threshold — and
`is_high_match` is false. -/
theorem scenario_a_b_score :
    calculate_interest_overlap profile_A.interests profile_B.interests = 1 / 2 ∧
    calculate_industry_match (profile_A.industry.getD "") (profile_B.industry.getD "") = 1 ∧
    calculate_role_compatibility (profile_A.role.getD "") (profile_B.role.getD "")
      (profile_A.seniority.getD "") (profile_B.seniority.getD "") = 1 / 2 ∧
    calculate_match_score profile_A profile_B = 3 / 5 ∧
    is_high_match (3 / 4) (calculate_match_score profile_A profile_B) = false := by
  have hs : seniorityLevel "senior" = some 2 := by decide
  have hscore : calculate_match_score profile_A profile_B = 3 / 5 := by
    simp +decide [calculate_match_score, calculate_interest_overlap, calculate_industry_match,
      calculate_role_compatibility, role_part, seniority_part, hs,
      calculate_goals_alignment, profile_A, profile_B]
    norm_num
  refine ⟨?_, ?_, ?_, hscore, ?_⟩
  · simp +decide [calculate_interest_overlap, profile_A, profile_B]
    norm_num
  · simp +decide [calculate_industry_match, profile_A, profile_B]
  · simp +decide [calculate_role_compatibility, role_part, seniority_part, hs, profile_A, profile_B]
    norm_num
  · rw [hscore]
    simp [is_high_match]
    norm_num

/-- C3: for every pair of profiles — including profiles with absent or
empty interests, industry, role, seniority or goals — the match score is
a rational in the closed interval `[0, 1]`; the scoring functions are
total, so missing fields degrade to zero contributions instead of
raising. -/
theorem match_score_in_unit_interval (a b : Profile) :
    0 ≤ calculate_match_score a b ∧ calculate_match_score a b ≤ 1 := by
  obtain ⟨hi0, hi1⟩ := calculate_interest_overlap_bounds a.interests b.interests
  obtain ⟨hn0, hn1⟩ := calculate_industry_match_bounds (a.industry.getD "") (b.industry.getD "")
  obtain ⟨hr0, hr1⟩ := calculate_role_compatibility_bounds (a.role.getD "") (b.role.getD "")
    (a.seniority.getD "") (b.seniority.getD "")
  obtain ⟨hg0, hg1⟩ := calculate_goals_alignment_bounds a.goals b.goals
  simp only [calculate_match_score]
  norm_num
  exact ⟨by linarith, by linarith⟩

/-- C3 (witness): the bounds applied at two concrete profiles. -/
theorem match_score_in_unit_interval_witness :
    0 ≤ calculate_match_score profile_A profile_B ∧
      calculate_match_score profile_A profile_B ≤ 1 :=
  match_score_in_unit_interval profile_A profile_B

/-- C4: `can_auto_execute` follows the four-way decision table on the
effective permission level for the action type: `never` and `always_ask`
give false regardless of the match flag, `always_auto` gives true
regardless, and `auto_high_match` returns exactly the match flag. -/
theorem can_auto_execute_decision_table (prefs : Prefs) (action_type : ActionType) (high : Bool) :
    (get_user_permissions prefs action_type = PermissionLevel.never →
      can_auto_execute prefs action_type high = false) ∧
    (get_user_permissions prefs action_type = PermissionLevel.always_auto →
      can_auto_execute prefs action_type high = true) ∧
    (get_user_permissions prefs action_type = PermissionLevel.auto_high_match →
      can_auto_execute prefs action_type high = high) ∧
    (get_user_permissions prefs action_type = PermissionLevel.always_ask →
      can_auto_execute prefs action_type high = false) := by
  refine ⟨fun h => ?_, fun h => ?_, fun h => ?_, fun h => ?_⟩ <;>
    simp [can_auto_execute, h]

/-- C4 (witness): a stored `never` override blocks `send_message` even
for a high match. -/
theorem can_auto_execute_decision_table_witness :
    get_user_permissions prefs_never ActionType.send_message = PermissionLevel.never ∧
    can_auto_execute prefs_never ActionType.send_message true = false :=
  ⟨rfl, (can_auto_execute_decision_table prefs_never ActionType.send_message true).1 rfl⟩

/-- C5: when the profile store returns no profile for the detected
person, `handle_new_person_nearby` returns exactly the skip result with
reason `No profile found`, and the effect trace is empty: no send is
attempted and no interaction is logged (and no score or permission gate
is consulted, the flow being terminal at the lookup step). -/
theorem skip_when_profile_missing (env : AgentEnv) (other_user_id : String)
    (h : env.get_profile other_user_id = none) :
    handle_new_person_nearby env other_user_id = (AgentResult.skip "No profile found", []) := by
  unfold handle_new_person_nearby
  rw [h]

/-- C5 (witness): the skip result at a concrete environment whose
profile store finds nobody. -/
theorem skip_when_profile_missing_witness :
    env_missing.get_profile "other-1" = none ∧
    handle_new_person_nearby env_missing "other-1" = (AgentResult.skip "No profile found", []) :=
  ⟨rfl, skip_when_profile_missing env_missing "other-1" rfl⟩

/-- C6: `get_user_permissions` is total: a missing stored value falls
back to the per-action default, an unparseable stored value also falls
back to the default, and the default table is exactly send_message =
auto_high_match, schedule_meeting = always_ask, send_email =
auto_high_match, share_profile = always_auto, request_connection =
auto_high_match. -/
theorem get_user_permissions_defaults (prefs : Prefs) (a : ActionType) :
    (prefs.permissions a.value = none → get_user_permissions prefs a = default_permissions a) ∧
    (∀ s, prefs.permissions a.value = some s → PermissionLevel.ofValue s = none →
      get_user_permissions prefs a = default_permissions a) ∧
    (default_permissions ActionType.send_message = PermissionLevel.auto_high_match ∧
      default_permissions ActionType.schedule_meeting = PermissionLevel.always_ask ∧
      default_permissions ActionType.send_email = PermissionLevel.auto_high_match ∧
      default_permissions ActionType.share_profile = PermissionLevel.always_auto ∧
      default_permissions ActionType.request_connection = PermissionLevel.auto_high_match) := by
  refine ⟨?_, ?_, rfl, rfl, rfl, rfl, rfl⟩
  · intro h
    unfold get_user_permissions
    rw [h]
  · intro s hs hn
    unfold get_user_permissions
    rw [hs]
    by_cases he : s = ""
    · simp [he]
    · simp [he, hn]

/-- C6 (witness): a store holding the unparseable value `sometimes` for
`send_email` degrades to the `auto_high_match` default, and the
unstored `schedule_meeting` gets its `always_ask` default. -/
theorem get_user_permissions_defaults_witness :
    prefs_corrupt.permissions ActionType.send_email.value = some "sometimes" ∧
    PermissionLevel.ofValue "sometimes" = none ∧
    get_user_permissions prefs_corrupt ActionType.send_email = PermissionLevel.auto_high_match ∧
    get_user_permissions prefs_corrupt ActionType.schedule_meeting = PermissionLevel.always_ask :=
  ⟨rfl, rfl,
    ((get_user_permissions_defaults prefs_corrupt ActionType.send_email).2.1
      "sometimes" rfl rfl).trans rfl,
    ((get_user_permissions_defaults prefs_corrupt ActionType.schedule_meeting).1 rfl).trans rfl⟩

/-- C7: a fully populated, self-consistent profile scores exactly `1`
against an identical copy of itself: the interest Jaccard, industry
exact match and goals Jaccard are all `1`, and the exact role match plus
seniority-distance-zero reach `1` after clamping.  Self-consistency
means the seniority is recognised by the ladder and the goal list
produces at least one token. -/
theorem self_match_score_eq_one (a : Profile)
    (h1 : a.interests ≠ []) (h2 : a.industry.getD "" ≠ "") (h3 : a.role.getD "" ≠ "")
    (h4 : a.seniority.getD "" ≠ "")
    (h5 : (seniorityLevel (a.seniority.getD "")).isSome = true)
    (h6 : a.goals ≠ []) (h7 : pySplit (lower (joinWith " " a.goals)) ≠ []) :
    calculate_match_score a a = 1 := by
  simp only [calculate_match_score, calculate_role_compatibility]
  rw [calculate_interest_overlap_self _ h1, calculate_industry_match_self _ h2,
    role_part_self _ h3, seniority_part_self _ h4 h5, calculate_goals_alignment_self _ h6 h7]
  norm_num

/-- C7 (witness): the self-match score at a concrete fully populated
profile. -/
theorem self_match_score_eq_one_witness :
    (seniorityLevel (profile_self.seniority.getD "")).isSome = true ∧
    pySplit (lower (joinWith " " profile_self.goals)) ≠ [] ∧
    calculate_match_score profile_self profile_self = 1 :=
  ⟨by decide, by decide,
    self_match_score_eq_one profile_self (by decide) (by decide) (by decide) (by decide)
      (by decide) (by decide) (by decide)⟩

/-- C8: the interest-overlap, industry-match and goals-alignment
sub-scores are symmetric in their two arguments, while the role
sub-check is directional (tokens of role A searched inside role B), so
the overall match score is not symmetric in general: the profiles with
roles `eng` and `engineer` score differently in the two orders. -/
theorem sub_scores_symmetric_but_score_not :
    (∀ i1 i2, calculate_interest_overlap i1 i2 = calculate_interest_overlap i2 i1) ∧
    (∀ s1 s2, calculate_industry_match s1 s2 = calculate_industry_match s2 s1) ∧
    (∀ g1 g2, calculate_goals_alignment g1 g2 = calculate_goals_alignment g2 g1) ∧
    calculate_match_score profile_eng profile_engineer ≠
      calculate_match_score profile_engineer profile_eng := by
  refine ⟨calculate_interest_overlap_comm, calculate_industry_match_comm,
    calculate_goals_alignment_comm, ?_⟩
  have h1 : calculate_match_score profile_eng profile_engineer = 3 / 50 := by
    simp +decide [calculate_match_score, calculate_interest_overlap, calculate_industry_match,
      calculate_role_compatibility, role_part, seniority_part, calculate_goals_alignment,
      profile_eng, profile_engineer]
    norm_num
  have h2 : calculate_match_score profile_engineer profile_eng = 0 := by
    simp +decide [calculate_match_score, calculate_interest_overlap, calculate_industry_match,
      calculate_role_compatibility, role_part, seniority_part, calculate_goals_alignment,
      profile_eng, profile_engineer]
  rw [h1, h2]
  norm_num

/-- C9: updating one permission and reading back yields the new level
for that action type, and the effective level of every other action type
is unchanged, because the update is a read-modify-write of the full
stored permission map keyed by distinct enum values. -/
theorem update_permission_round_trip (prefs : Prefs) (a : ActionType)
    (lvl : PermissionLevel) (b : ActionType) :
    get_user_permissions (update_permission prefs a lvl) a = lvl ∧
    (b ≠ a →
      get_user_permissions (update_permission prefs a lvl) b = get_user_permissions prefs b) := by
  constructor
  · unfold get_user_permissions update_permission
    simp [PermissionLevel.ofValue_value, PermissionLevel.value_ne_empty]
  · intro hne
    have hv : b.value ≠ a.value := fun h => hne (ActionType.value_injective b a h)
    unfold get_user_permissions update_permission
    simp [hv]

/-- C9 (witness): setting `send_message` to `never` on an empty store
reads back as `never` and leaves `schedule_meeting` at its prior
effective level. -/
theorem update_permission_round_trip_witness :
    get_user_permissions (update_permission prefs_empty ActionType.send_message
      PermissionLevel.never) ActionType.send_message = PermissionLevel.never ∧
    get_user_permissions (update_permission prefs_empty ActionType.send_message
      PermissionLevel.never) ActionType.schedule_meeting =
      get_user_permissions prefs_empty ActionType.schedule_meeting :=
  ⟨(update_permission_round_trip prefs_empty ActionType.send_message PermissionLevel.never
      ActionType.schedule_meeting).1,
    (update_permission_round_trip prefs_empty ActionType.send_message PermissionLevel.never
      ActionType.schedule_meeting).2 (by decide)⟩

/-- C10: when both industry fields are absent or empty, the
case-insensitive equality check in `get_match_reason` still fires (empty
equals empty) and a reason `both work in X` is built from the raw
industry value of the first profile (the four characters `None` when the
field is absent); consequently two profiles with no interests, no
industry and no roles do NOT get the fixed fallback phrase. -/
theorem empty_industry_match_reason (a b : Profile) (score : ℚ)
    (h1 : a.industry.getD "" = "") (h2 : b.industry.getD "" = "") :
    ("both work in " ++ pyStr a.industry) ∈ match_reasons a b ∧
    (a.interests = [] → pyTruthy a.role = false →
      get_match_reason a b score ≠ "potential synergy based on your profiles") := by
  constructor
  · simp only [match_reasons]
    rw [h1, h2]
    simp
  · intro hi hr
    simp only [get_match_reason, match_reasons]
    rw [h1, h2]
    simp [hi, hr]
    exact both_work_in_ne_fallback _

/-- C10 (witness): two entirely blank profiles produce the reason
`both work in None` and not the fallback phrase. -/
theorem empty_industry_match_reason_witness :
    ("both work in " ++ pyStr (Profile.industry {})) ∈ match_reasons {} {} ∧
    get_match_reason {} {} 0 ≠ "potential synergy based on your profiles" :=
  ⟨(empty_industry_match_reason {} {} 0 rfl rfl).1,
    (empty_industry_match_reason {} {} 0 rfl rfl).2 rfl rfl⟩
